import Mathlib

/-!
Shallow embedding of the spts repository core (z0rr0/spts): the binary
token protocol (src/auth/random.go, src/auth/auth.go), the session handler
(src/server/server.go), and the cancellable stream primitives
(src/common/reader.go, src/common/writer.go).

Bytes are modelled as `Nat` values (< 256 for real byte data); byte
buffers as `List Nat`.  The SHA-512 digest from Go's crypto/sha512 is kept
abstract: every theorem about signing takes the digest as a function
argument `hash` together with the fact that its output is 64 bytes long
(`sha512.Size`).  Clock reads (`time.Now().Unix()`) and random reads
(`crypto/rand.Read`) are passed in explicitly as `now` and `saltNew`.
-/

namespace Spts

/-! ### Big-endian integer encoding (Go encoding/binary) -/

/-- Go `binary.BigEndian.PutUint16`: two bytes, most significant first. -/
def putUint16BE (v : Nat) : List Nat :=
  [v / 2 ^ 8 % 256, v % 256]

/-- Go `binary.BigEndian.PutUint64`: eight bytes, most significant first. -/
def putUint64BE (v : Nat) : List Nat :=
  [v / 2 ^ 56 % 256, v / 2 ^ 48 % 256, v / 2 ^ 40 % 256, v / 2 ^ 32 % 256,
   v / 2 ^ 24 % 256, v / 2 ^ 16 % 256, v / 2 ^ 8 % 256, v % 256]

/-- Go `binary.Read(..., BigEndian, &uint16)` applied to a 2-byte slice. -/
def readUint16BE (b : List Nat) : Nat :=
  b.getD 0 0 * 2 ^ 8 + b.getD 1 0

/-- Big-endian read of eight bytes as an unsigned 64-bit value. -/
def readUint64BE (b : List Nat) : Nat :=
  b.getD 0 0 * 2 ^ 56 + b.getD 1 0 * 2 ^ 48 + b.getD 2 0 * 2 ^ 40 +
  b.getD 3 0 * 2 ^ 32 + b.getD 4 0 * 2 ^ 24 + b.getD 5 0 * 2 ^ 16 +
  b.getD 6 0 * 2 ^ 8 + b.getD 7 0

/-- Go `binary.Read(..., BigEndian, &int64)`: the unsigned value
reinterpreted in two's complement. -/
def readInt64BE (b : List Nat) : Int :=
  let u := readUint64BE b
  if u < 2 ^ 63 then (u : Int) else (u : Int) - 2 ^ 64

/-- Go conversion `uint64(t)` of an `int64` value: two's complement bits. -/
def int64Bits (i : Int) : Nat :=
  (i % (2 ^ 64 : Int)).toNat

/-! ### Byte-buffer helpers (Go builtin `copy`) -/

/-- Go `copy(dst, src)`: overwrites the first `min dst.length src.length`
bytes of `dst` with bytes of `src`, keeping the rest of `dst`. -/
def copyInto (dst src : List Nat) : List Nat :=
  src.take (min dst.length src.length) ++ dst.drop (min dst.length src.length)

/-! ### net.IP.To16 (Go net package, used by `Token.Sign`) -/

/-- Go `v4InV6Bytes`: the 12-byte prefix of an IPv4-mapped IPv6 address. -/
def v4InV6Bytes : List Nat :=
  [0, 0, 0, 0, 0, 0, 0, 0, 0, 0, 255, 255]

/-- Go `net.IP.To16`: a 4-byte address is mapped into IPv6 form, a 16-byte
address is returned unchanged, anything else yields nil (modelled `[]`). -/
def ipTo16 (ip : List Nat) : List Nat :=
  if ip.length = 4 then v4InV6Bytes ++ ip
  else if ip.length = 16 then ip
  else []

/-- The 16 IP bytes of the wire buffer: `copy(buf[endClient:endIP], ip.To16())`
into a zero-initialised region (zeros stay where the source is short). -/
def ipField (ip : List Nat) : List Nat :=
  (ipTo16 ip).take 16 ++ List.replicate (16 - (ipTo16 ip).length) 0

/-! ### Wire-format constants (src/auth/random.go) -/

def lenAction : Nat := 1
def lenClientID : Nat := 2
def lenIP : Nat := 16
def lenSalt : Nat := 32
def lenTime : Nat := 8
def lenSign : Nat := 64
def lenToken : Nat := lenAction + lenClientID + lenIP + lenSalt + lenTime + lenSign

def endClient : Nat := lenAction + lenClientID
def endIP : Nat := endClient + lenIP
def endSalt : Nat := endIP + lenSalt
def endTime : Nat := endSalt + lenTime

/-- Go `timestampLimit`: allowed UNIX-time difference, in seconds. -/
def timestampLimit : Int := 30

/-! ### Token (src/auth/random.go) -/

/-- Go `auth.Token`.  `salt` and `signature` are fixed-size arrays in Go
(`[32]byte`, `[64]byte`); here they are lists whose lengths are pinned by
`Token.WF`. -/
structure Token where
  clientID : Nat
  secret : List Nat
  download : Bool
  ip : List Nat
  salt : List Nat
  timestamp : Int
  signature : List Nat
deriving Repr, DecidableEq

/-- Well-formedness corresponding to the Go field types: `ClientID` is a
uint16, `salt` a 32-byte array, `signature` a 64-byte array, `timestamp`
an int64.  (`IP` is a Go slice of arbitrary length, so it is unconstrained.) -/
def Token.WF (t : Token) : Prop :=
  t.clientID < 2 ^ 16 ∧ t.salt.length = 32 ∧ t.signature.length = 64 ∧
    -(2 ^ 63 : Int) ≤ t.timestamp ∧ t.timestamp < 2 ^ 63

instance (t : Token) : Decidable t.WF := by
  unfold Token.WF
  infer_instance

/-- The first `endTime = 59` bytes written by `Token.Sign`: direction byte
(`buf[0] = 1` iff upload, i.e. `!t.Download`), big-endian clientID,
16-byte IP form, salt, big-endian timestamp bits.  In Go these are
sequential disjoint writes into a zeroed 123-byte buffer. -/
def prefixPart (t : Token) : List Nat :=
  (if t.download then 0 else 1) ::
    (putUint16BE t.clientID ++ ipField t.ip ++ t.salt ++
      putUint64BE (int64Bits t.timestamp))

/-- Go `Token.Sign`: serialises the fields, hashes `prefix ++ secret`,
copies the digest into the token's signature array
(`copy(t.signature[:], h.Sum(nil))`) and into the buffer's last 64 bytes
(`copy(buf[endTime:], t.signature[:])`); returns the mutated token and
the full buffer. -/
def Token.Sign (hash : List Nat → List Nat) (t : Token) : Token × List Nat :=
  let pre := prefixPart t
  let sig := copyInto t.signature (hash (pre ++ t.secret))
  ({ t with signature := sig }, pre ++ copyInto (List.replicate lenSign 0) sig)

/-- Go `Token.Verify`: re-signs the token (mutating its signature field)
and compares the candidate bytes with the recomputed signature
(`hmac.Equal` is plain byte equality, in constant time). -/
def Token.Verify (hash : List Nat → List Nat) (t : Token) (signature : List Nat) :
    Token × Bool :=
  let t' := (t.Sign hash).1
  (t', signature == t'.signature)

/-- Go `Token.init`: sets `timestamp` to the current time only when it is
zero, then fills `salt` from the random source (`rand.Read(t.salt[:])`,
modelled as copying `saltNew`; the read-failure branch is not modelled). -/
def Token.init (now : Int) (saltNew : List Nat) (t : Token) : Token :=
  let t1 := if t.timestamp = 0 then { t with timestamp := now } else t
  { t1 with salt := copyInto t1.salt saltNew }

/-- Go `Token.Build`: `init` then `Sign`. -/
def Token.Build (hash : List Nat → List Nat) (now : Int) (saltNew : List Nat)
    (t : Token) : Token × List Nat :=
  (t.init now saltNew).Sign hash

/-! ### Server-side verification (src/auth/auth.go) -/

/-- Failure cases of `verifyHeader` / `Verify` in src/auth/auth.go.  Go's
`binary.Read` of a uint16 or int64 from an exact-size in-memory slice
cannot fail, so those error branches are unreachable and not modelled. -/
inductive VerifyError where
  | invalidHeaderLength (n : Nat)
  | unknownClient (id : Nat)
  | timeNotSynchronized (diff : Int)
  | tokenSignature
  | readFailed
  | invalidTokenLength
deriving Repr, DecidableEq

/-- Go `verifyTimestamp`: parses a big-endian int64 and rejects it when
the difference to the server clock exceeds `timestampLimit` in either
direction (a difference of exactly 30 is accepted). -/
def verifyTimestamp (now : Int) (value : List Nat) : Except VerifyError Int :=
  let timestamp := readInt64BE value
  let timeDiff := now - timestamp
  if timeDiff > timestampLimit ∨ timeDiff < -timestampLimit then
    Except.error (VerifyError.timeNotSynchronized timeDiff)
  else
    Except.ok timestamp

/-- The clientID parsed from `header[lenAction:endClient]`
(`binary.Read` of a big-endian uint16). -/
def hdrClientID (header : List Nat) : Nat :=
  readUint16BE ((header.drop lenAction).take lenClientID)

/-- The timestamp parsed from `header[endSalt:endTime]`
(`binary.Read` of a big-endian int64 inside `verifyTimestamp`). -/
def hdrTimestamp (header : List Nat) : Int :=
  readInt64BE ((header.drop endSalt).take lenTime)

/-- The token literal constructed inside `verifyHeader`
(src/auth/auth.go lines 146-154): fields parsed from the header, the
`Secret` taken from the server's table, `salt` copied from the header, and
the signature array left at its zero value. -/
def parseToken (header : List Nat) (secret : List Nat) (timestamp : Int) : Token where
  clientID := hdrClientID header
  secret := secret
  download := header.getD 0 0 == 0
  ip := (header.drop endClient).take lenIP
  salt := (header.drop endIP).take lenSalt
  timestamp := timestamp
  signature := List.replicate lenSign 0

/-- The server's credential table (`map[uint16]*Token`): an association
list from clientID to the shared secret, looked up with `List.lookup`. -/
abbrev CredTable := List (Nat × List Nat)

/-- Go `verifyHeader`: length check, clientID lookup (unknown client),
timestamp window, signature verification via `Token.Verify`, and on
success `Token.init` to refresh the token for the reply. -/
def verifyHeader (hash : List Nat → List Nat) (now : Int) (saltNew : List Nat)
    (header : List Nat) (serverTokens : CredTable) : Except VerifyError Token :=
  if header.length ≠ lenToken then
    Except.error (VerifyError.invalidHeaderLength header.length)
  else
    match serverTokens.lookup (hdrClientID header) with
    | none => Except.error (VerifyError.unknownClient (hdrClientID header))
    | some secret =>
      match verifyTimestamp now ((header.drop endSalt).take lenTime) with
      | Except.error e => Except.error e
      | Except.ok timestamp =>
        let token := parseToken header secret timestamp
        let signature := header.drop endTime
        let verified := token.Verify hash signature
        if verified.2 then
          Except.ok (verified.1.init now saltNew)
        else
          Except.error VerifyError.tokenSignature

/-- Go `auth.Verify` (server side): one `Read` into a 123-byte buffer;
an I/O error or a read of any other length aborts before `verifyHeader`.
The read outcome is a parameter: `Except.error ()` is an I/O error,
`Except.ok data` a successful read of `data.length` bytes. -/
def Verify (hash : List Nat → List Nat) (now : Int) (saltNew : List Nat)
    (readOutcome : Except Unit (List Nat)) (tokens : CredTable) :
    Except VerifyError Token :=
  match readOutcome with
  | Except.error _ => Except.error VerifyError.readFailed
  | Except.ok data =>
    if data.length ≠ lenToken then Except.error VerifyError.invalidTokenLength
    else verifyHeader hash now saltNew data tokens

/-! ### Client handshake (src/auth/random.go `Token.Handshake`) -/

/-- Failure cases of the client-side `Token.Handshake`. -/
inductive HandshakeError where
  | writeFailed
  | invalidWriteLength
  | readFailed
  | invalidReadLength
  | verifyFailed (e : VerifyError)
deriving Repr, DecidableEq

/-- Go `Token.Handshake`: builds (refresh + sign) the token, writes the
123-byte header, reads the reply, and verifies it against a one-entry
table holding the client's own clientID and secret.  I/O outcomes are
parameters (`writeOutcome`: bytes written or error; `readOutcome`: bytes
read or error).  The result pairs the bytes handed to the write call with
the overall outcome (the token as mutated by `Build` on success). -/
def Token.Handshake (hash : List Nat → List Nat) (now : Int) (saltNew : List Nat)
    (t : Token) (writeOutcome : Except Unit Nat)
    (readOutcome : Except Unit (List Nat)) :
    List Nat × Except HandshakeError Token :=
  let built := t.Build hash now saltNew
  let result : Except HandshakeError Token :=
    match writeOutcome with
    | Except.error _ => Except.error HandshakeError.writeFailed
    | Except.ok n =>
      if n ≠ lenToken then Except.error HandshakeError.invalidWriteLength
      else
        match readOutcome with
        | Except.error _ => Except.error HandshakeError.readFailed
        | Except.ok reply =>
          if reply.length ≠ lenToken then Except.error HandshakeError.invalidReadLength
          else
            match verifyHeader hash now saltNew reply
                [(built.1.clientID, built.1.secret)] with
            | Except.error e => Except.error (HandshakeError.verifyFailed e)
            | Except.ok _ => Except.ok built.1
  (built.2, result)

/-! ### Session handler (src/server/server.go `handleConnection`) -/

/-- Failure cases of `handleConnection`. -/
inductive HandleError where
  | authFailed (e : VerifyError)
  | ipAddressError
deriving Repr, DecidableEq

/-- Go `handleConnection`: verifies the inbound token (`auth.Verify`), on
success stamps the peer's IP into the token, re-signs it, writes the
123-byte reply and runs the transfer phase.  The result is the list of
write payloads issued on the connection (before it is closed) together
with the error outcome.  `remoteIP` is `none` when `conn.RemoteAddr()` is
not a TCP address; `downloadChunks` stands for the pseudorandom chunks
copied from the stream Reader during a download (the upload direction
only reads). -/
def handleConnection (hash : List Nat → List Nat) (now : Int) (saltNew : List Nat)
    (readOutcome : Except Unit (List Nat)) (tokens : CredTable)
    (remoteIP : Option (List Nat)) (downloadChunks : List (List Nat)) :
    List (List Nat) × Option HandleError :=
  match Verify hash now saltNew readOutcome tokens with
  | Except.error e => ([], some (HandleError.authFailed e))
  | Except.ok token =>
    match remoteIP with
    | none => ([], some HandleError.ipAddressError)
    | some ip =>
      let token := { token with ip := ip }
      let signed := token.Sign hash
      (signed.2 :: (if token.download then downloadChunks else []), none)

/-! ### Random stream primitives (src/common/reader.go, src/common/writer.go)

Both the Reader and the Writer run a producer goroutine whose loop is a
`select` between `ctx.Done()` and a default branch.  The observable
behaviour of one `Read`/`Write` call is determined by the context state
the producer saw when it served that call, which is what the step
functions below take as input. -/

/-- State of the governing context as observed by the producer's select. -/
inductive CtxState where
  | active
  | deadlineExceeded
  | canceled
deriving Repr, DecidableEq

/-- The sentinel values the stream primitives put in the error slot:
`io.EOF`, `context.Canceled`, and `common.ErrWriterTimeout`.  They are
pairwise distinct Go values. -/
inductive StreamErr where
  | eof
  | ctxCanceled
  | writerTimeout
deriving Repr, DecidableEq

/-- The value the Reader goroutine sends for one iteration
(src/unnamed/part_013 lines 135-151, identical select in
src/common/reader.go): data (`none` error) while the context is live,
`io.EOF` once the deadline has been exceeded, and the context's error for
a true cancellation. -/
def readerSignal : CtxState → Option StreamErr
  | CtxState.active => none
  | CtxState.deadlineExceeded => some StreamErr.eof
  | CtxState.canceled => some StreamErr.ctxCanceled

/-- Go `Reader.Read`: a signalled error gives `(0, err)`; otherwise
`rnd.Read(p)` fills the whole caller buffer. -/
def readerRead (st : CtxState) (bufLen : Nat) : Nat × Option StreamErr :=
  match readerSignal st with
  | some e => (0, some e)
  | none => (bufLen, none)

/-- The value the Writer goroutine sends for one iteration
(src/common/writer.go lines 22-34): `nil` while live, `ErrWriterTimeout`
once the deadline has been exceeded, the context's error on cancellation. -/
def writerSignal : CtxState → Option StreamErr
  | CtxState.active => none
  | CtxState.deadlineExceeded => some StreamErr.writerTimeout
  | CtxState.canceled => some StreamErr.ctxCanceled

/-- Go `Writer.Write`: a signalled error gives `(0, err)`; otherwise the
sink discards the bytes and reports all of them written. -/
def writerWrite (st : CtxState) (bufLen : Nat) : Nat × Option StreamErr :=
  match writerSignal st with
  | some e => (0, some e)
  | none => (bufLen, none)

/-- Go `upload` (src/server/server.go lines 425-435): the copy's error is
treated as success when it is `nil` or `common.ErrWriterTimeout`
(`err != nil && !errors.Is(err, common.ErrWriterTimeout)` is the failure
condition). -/
def uploadCopyOk : Option StreamErr → Bool
  | none => true
  | some StreamErr.writerTimeout => true
  | some _ => false

/-! ### Admission semaphore (src/server/server.go)

Transition system of the semaphore discipline: `connAccept` sends into
the capacity-`N` channel before `AcceptTCP` (blocking when
`accepting + sessions = N`), releases the slot through its deferred
`freeSemaphore` receive on every failed accept, and hands ownership to
the per-connection goroutine on success; that goroutine receives from the
channel exactly once, after `handleConnection` returns. -/

/-- Runtime counters of the accept loop: `accepting` is the number of
`connAccept` calls currently holding a slot, `sessions` the number of
spawned connection goroutines that have not yet released theirs. -/
structure ServerState where
  accepting : Nat
  sessions : Nat
deriving Repr, DecidableEq

/-- One step of the semaphore protocol with capacity `N`. -/
inductive SemStep (N : Nat) : ServerState → ServerState → Prop where
  | acquire (s : ServerState) :
      s.accepting + s.sessions < N →
      SemStep N s ⟨s.accepting + 1, s.sessions⟩
  | acceptFailed (s : ServerState) :
      0 < s.accepting →
      SemStep N s ⟨s.accepting - 1, s.sessions⟩
  | acceptOk (s : ServerState) :
      0 < s.accepting →
      SemStep N s ⟨s.accepting - 1, s.sessions + 1⟩
  | sessionDone (s : ServerState) :
      0 < s.sessions →
      SemStep N s ⟨s.accepting, s.sessions - 1⟩

/-- States reachable from server start (no slot held, no session). -/
inductive SemReachable (N : Nat) : ServerState → Prop where
  | start : SemReachable N ⟨0, 0⟩
  | next {s s' : ServerState} :
      SemReachable N s → SemStep N s s' → SemReachable N s'

/-! ### Concrete instances used by the witnesses -/

/-- A stand-in digest function for witnesses: constant 64-byte output. -/
def hash0 : List Nat → List Nat := fun _ => List.replicate 64 0

/-- A concrete well-formed token. -/
def t0 : Token :=
  ⟨1, [7], true, List.replicate 16 0, List.replicate 32 0, 10, List.replicate 64 0⟩

/-- A concrete 32-byte salt standing for fresh random bytes. -/
def saltA : List Nat := List.replicate 32 1

/-- The credential table holding `t0`'s clientID and secret. -/
def tableA : CredTable := [(1, [7])]

/-! ### Basic lemmas about the byte-level helpers -/

@[simp]
lemma putUint16BE_length (v : Nat) : (putUint16BE v).length = 2 := rfl

@[simp]
lemma putUint64BE_length (v : Nat) : (putUint64BE v).length = 8 := rfl

@[simp]
lemma ipField_length (ip : List Nat) : (ipField ip).length = 16 := by
  simp only [ipField, List.length_append, List.length_take, List.length_replicate]
  omega

@[simp]
lemma copyInto_length (dst src : List Nat) : (copyInto dst src).length = dst.length := by
  simp only [copyInto, List.length_append, List.length_take, List.length_drop]
  omega

lemma copyInto_of_length_eq (dst src : List Nat) (h : dst.length = src.length) :
    copyInto dst src = src := by
  unfold copyInto
  rw [h, min_self, List.take_length, ← h, List.drop_length, List.append_nil]

lemma prefixPart_length (t : Token) (hsalt : t.salt.length = 32) :
    (prefixPart t).length = 59 := by
  simp [prefixPart, hsalt]

/-- Normal form of the signed token returned by `Sign`: the signature
field holds the digest (the 64-byte digest fully overwrites the 64-byte
array). -/
lemma Token.Sign_fst_signature (hash : List Nat → List Nat) (t : Token)
    (hsig : t.signature.length = 64)
    (hh : (hash (prefixPart t ++ t.secret)).length = 64) :
    ((t.Sign hash).1).signature = hash (prefixPart t ++ t.secret) := by
  simp only [Token.Sign]
  exact copyInto_of_length_eq _ _ (by rw [hsig, hh])

/-- The buffer returned by `Sign` is the 59-byte field prefix followed by
the digest. -/
lemma Token.Sign_snd (hash : List Nat → List Nat) (t : Token)
    (hsig : t.signature.length = 64)
    (hh : (hash (prefixPart t ++ t.secret)).length = 64) :
    (t.Sign hash).2 = prefixPart t ++ hash (prefixPart t ++ t.secret) := by
  simp only [Token.Sign]
  rw [copyInto_of_length_eq t.signature (hash (prefixPart t ++ t.secret))
      (by rw [hsig, hh]),
    copyInto_of_length_eq (List.replicate lenSign 0) (hash (prefixPart t ++ t.secret))
      (by simp [lenSign, hh])]

/-- Fully associated decomposition of the wire buffer into its six fields. -/
lemma Token.Sign_snd_fields (hash : List Nat → List Nat) (t : Token)
    (hsig : t.signature.length = 64)
    (hh : (hash (prefixPart t ++ t.secret)).length = 64) :
    (t.Sign hash).2 =
      [if t.download then 0 else 1] ++
        (putUint16BE t.clientID ++
          (ipField t.ip ++
            (t.salt ++
              (putUint64BE (int64Bits t.timestamp) ++
                hash (prefixPart t ++ t.secret))))) := by
  rw [Token.Sign_snd hash t hsig hh]
  simp [prefixPart, List.append_assoc]

section SignSlices

variable (hash : List Nat → List Nat) (t : Token)

/-- The tail of the buffer after the direction byte. -/
lemma Sign_drop1 (hsig : t.signature.length = 64)
    (hh : (hash (prefixPart t ++ t.secret)).length = 64) :
    ((t.Sign hash).2).drop 1 =
      putUint16BE t.clientID ++
        (ipField t.ip ++
          (t.salt ++
            (putUint64BE (int64Bits t.timestamp) ++
              hash (prefixPart t ++ t.secret)))) := by
  rw [Token.Sign_snd_fields hash t hsig hh]
  exact List.drop_left' rfl

/-- The tail of the buffer after direction byte and clientID. -/
lemma Sign_drop3 (hsig : t.signature.length = 64)
    (hh : (hash (prefixPart t ++ t.secret)).length = 64) :
    ((t.Sign hash).2).drop 3 =
      ipField t.ip ++
        (t.salt ++
          (putUint64BE (int64Bits t.timestamp) ++
            hash (prefixPart t ++ t.secret))) := by
  have h' : ((t.Sign hash).2).drop 3 = (((t.Sign hash).2).drop 1).drop 2 := by
    rw [List.drop_drop]
  rw [h', Sign_drop1 hash t hsig hh]
  exact List.drop_left' (putUint16BE_length _)

/-- The tail of the buffer from the salt field on. -/
lemma Sign_drop19 (hsig : t.signature.length = 64)
    (hh : (hash (prefixPart t ++ t.secret)).length = 64) :
    ((t.Sign hash).2).drop 19 =
      t.salt ++
        (putUint64BE (int64Bits t.timestamp) ++ hash (prefixPart t ++ t.secret)) := by
  have h' : ((t.Sign hash).2).drop 19 = (((t.Sign hash).2).drop 3).drop 16 := by
    rw [List.drop_drop]
  rw [h', Sign_drop3 hash t hsig hh]
  exact List.drop_left' (ipField_length _)

/-- The tail of the buffer from the timestamp field on. -/
lemma Sign_drop51 (hsalt : t.salt.length = 32) (hsig : t.signature.length = 64)
    (hh : (hash (prefixPart t ++ t.secret)).length = 64) :
    ((t.Sign hash).2).drop 51 =
      putUint64BE (int64Bits t.timestamp) ++ hash (prefixPart t ++ t.secret) := by
  have h' : ((t.Sign hash).2).drop 51 = (((t.Sign hash).2).drop 19).drop 32 := by
    rw [List.drop_drop]
  rw [h', Sign_drop19 hash t hsig hh]
  exact List.drop_left' hsalt

/-- The last 64 bytes of the buffer: the digest. -/
lemma Sign_drop59 (hsalt : t.salt.length = 32) (hsig : t.signature.length = 64)
    (hh : (hash (prefixPart t ++ t.secret)).length = 64) :
    ((t.Sign hash).2).drop 59 = hash (prefixPart t ++ t.secret) := by
  have h' : ((t.Sign hash).2).drop 59 = (((t.Sign hash).2).drop 51).drop 8 := by
    rw [List.drop_drop]
  rw [h', Sign_drop51 hash t hsalt hsig hh]
  exact List.drop_left' (putUint64BE_length _)

/-- The direction byte of the buffer. -/
lemma Sign_getD0 (hsig : t.signature.length = 64)
    (hh : (hash (prefixPart t ++ t.secret)).length = 64) :
    ((t.Sign hash).2).getD 0 0 = (if t.download then 0 else 1) := by
  rw [Token.Sign_snd_fields hash t hsig hh]
  rfl

/-- Total length of the wire buffer. -/
lemma Sign_length (hsalt : t.salt.length = 32) (hsig : t.signature.length = 64)
    (hh : (hash (prefixPart t ++ t.secret)).length = 64) :
    ((t.Sign hash).2).length = 123 := by
  rw [Token.Sign_snd_fields hash t hsig hh]
  simp [hsalt, hh]

end SignSlices

/-- C1 (claim): for every token, `Sign` returns a 123-byte buffer with the
direction byte (0 = download, 1 = upload) at offset 0, the big-endian
clientID at offsets 1-2, the 16-byte IP form at 3-18, the 32-byte salt at
19-50, the big-endian timestamp at 51-58, and the 64-byte signature at
59-122. -/
theorem c1_sign_wire_layout (hash : List Nat → List Nat)
    (hlen : ∀ l, (hash l).length = 64) (t : Token) (hWF : t.WF) :
    ((t.Sign hash).2).length = 123 ∧
    ((t.Sign hash).2).take 1 = [if t.download then 0 else 1] ∧
    (((t.Sign hash).2).drop 1).take 2 = putUint16BE t.clientID ∧
    (((t.Sign hash).2).drop 3).take 16 = ipField t.ip ∧
    (((t.Sign hash).2).drop 19).take 32 = t.salt ∧
    (((t.Sign hash).2).drop 51).take 8 = putUint64BE (int64Bits t.timestamp) ∧
    ((t.Sign hash).2).drop 59 = ((t.Sign hash).1).signature ∧
    (((t.Sign hash).2).drop 59).length = 64 := by
  obtain ⟨hid, hsalt, hsig, _, _⟩ := hWF
  have hh := hlen (prefixPart t ++ t.secret)
  refine ⟨Sign_length hash t hsalt hsig hh, ?_, ?_, ?_, ?_, ?_, ?_, ?_⟩
  · rw [Token.Sign_snd_fields hash t hsig hh]
    exact List.take_left' rfl
  · rw [Sign_drop1 hash t hsig hh]
    exact List.take_left' (putUint16BE_length _)
  · rw [Sign_drop3 hash t hsig hh]
    exact List.take_left' (ipField_length _)
  · rw [Sign_drop19 hash t hsig hh]
    exact List.take_left' hsalt
  · rw [Sign_drop51 hash t hsalt hsig hh]
    exact List.take_left' (putUint64BE_length _)
  · rw [Sign_drop59 hash t hsalt hsig hh, Token.Sign_fst_signature hash t hsig hh]
  · rw [Sign_drop59 hash t hsalt hsig hh, hh]

/-- C2 (claim): the signature written by `Sign` is the digest of the first
59 buffer bytes concatenated with the secret, stored both in the token's
signature field and in the last 64 bytes of the buffer. -/
theorem c2_signature_of_prefix_and_secret (hash : List Nat → List Nat)
    (hlen : ∀ l, (hash l).length = 64) (t : Token) (hWF : t.WF) :
    ((t.Sign hash).1).signature = hash (((t.Sign hash).2).take 59 ++ t.secret) ∧
    ((t.Sign hash).2).take 59 = prefixPart t ∧
    ((t.Sign hash).2).drop 59 = ((t.Sign hash).1).signature := by
  obtain ⟨hid, hsalt, hsig, _, _⟩ := hWF
  have hh := hlen (prefixPart t ++ t.secret)
  have htake : ((t.Sign hash).2).take 59 = prefixPart t := by
    rw [Token.Sign_snd hash t hsig hh]
    exact List.take_left' (prefixPart_length t hsalt)
  have hdrop : ((t.Sign hash).2).drop 59 = hash (prefixPart t ++ t.secret) := by
    rw [Token.Sign_snd hash t hsig hh]
    exact List.drop_left' (prefixPart_length t hsalt)
  refine ⟨?_, htake, ?_⟩
  · rw [htake, Token.Sign_fst_signature hash t hsig hh]
  · rw [hdrop, Token.Sign_fst_signature hash t hsig hh]

theorem c1_sign_wire_layout_witness :
    ((t0.Sign hash0).2).length = 123 ∧
    (((t0.Sign hash0).2).drop 19).take 32 = t0.salt := by
  have h := c1_sign_wire_layout hash0 (fun _ => rfl) t0 (by decide)
  exact ⟨h.1, h.2.2.2.2.1⟩

theorem c2_signature_of_prefix_and_secret_witness :
    ((t0.Sign hash0).1).signature = hash0 (((t0.Sign hash0).2).take 59 ++ t0.secret) :=
  (c2_signature_of_prefix_and_secret hash0 (fun _ => rfl) t0 (by decide)).1

/-! ### Round-trips of the big-endian encoders -/

lemma readUint16BE_putUint16BE (v : Nat) (h : v < 2 ^ 16) :
    readUint16BE (putUint16BE v) = v := by
  simp only [readUint16BE, putUint16BE, List.getD_cons_zero, List.getD_cons_succ]
  omega

lemma readUint64BE_putUint64BE (v : Nat) (h : v < 2 ^ 64) :
    readUint64BE (putUint64BE v) = v := by
  simp only [readUint64BE, putUint64BE, List.getD_cons_zero, List.getD_cons_succ]
  omega

lemma int64Bits_lt (i : Int) : int64Bits i < 2 ^ 64 := by
  unfold int64Bits
  omega

lemma readInt64BE_putUint64BE_int64Bits (i : Int)
    (h1 : -(2 ^ 63 : Int) ≤ i) (h2 : i < 2 ^ 63) :
    readInt64BE (putUint64BE (int64Bits i)) = i := by
  simp only [readInt64BE]
  rw [readUint64BE_putUint64BE (int64Bits i) (int64Bits_lt i)]
  unfold int64Bits
  split <;> omega

/-! ### Branch behaviour of verifyHeader -/

lemma ipField_of_length16 (l : List Nat) (h : l.length = 16) : ipField l = l := by
  unfold ipField ipTo16
  rw [h]
  simp [List.take_of_length_le h.le, h]

lemma ipField_idem (ip : List Nat) : ipField (ipField ip) = ipField ip :=
  ipField_of_length16 (ipField ip) (ipField_length ip)

@[simp] lemma lenAction_eq : lenAction = 1 := rfl
@[simp] lemma lenClientID_eq : lenClientID = 2 := rfl
@[simp] lemma lenTime_eq : lenTime = 8 := rfl
@[simp] lemma lenToken_eq : lenToken = 123 := rfl
@[simp] lemma endClient_eq : endClient = 3 := rfl
@[simp] lemma endIP_eq : endIP = 19 := rfl
@[simp] lemma endSalt_eq : endSalt = 51 := rfl
@[simp] lemma endTime_eq : endTime = 59 := rfl
@[simp] lemma timestampLimit_eq : timestampLimit = 30 := rfl

/-- Projections of the token mutated by `Sign`: only the signature changes. -/
lemma Token.Sign_fst (hash : List Nat → List Nat) (t : Token) :
    (t.Sign hash).1 =
      { t with signature := copyInto t.signature (hash (prefixPart t ++ t.secret)) } :=
  rfl

lemma Token.init_clientID (now : Int) (s : List Nat) (t : Token) :
    (t.init now s).clientID = t.clientID := by
  by_cases h : t.timestamp = 0 <;> simp [Token.init, h]

lemma Token.init_download (now : Int) (s : List Nat) (t : Token) :
    (t.init now s).download = t.download := by
  by_cases h : t.timestamp = 0 <;> simp [Token.init, h]

lemma Token.init_secret (now : Int) (s : List Nat) (t : Token) :
    (t.init now s).secret = t.secret := by
  by_cases h : t.timestamp = 0 <;> simp [Token.init, h]

lemma Token.init_timestamp (now : Int) (s : List Nat) (t : Token) :
    (t.init now s).timestamp = if t.timestamp = 0 then now else t.timestamp := by
  by_cases h : t.timestamp = 0 <;> simp [Token.init, h]

lemma verifyTimestamp_ok (now : Int) (value : List Nat)
    (h1 : now - readInt64BE value ≤ timestampLimit)
    (h2 : -timestampLimit ≤ now - readInt64BE value) :
    verifyTimestamp now value = Except.ok (readInt64BE value) := by
  unfold verifyTimestamp
  rw [if_neg]
  push_neg
  exact ⟨h1, h2⟩

lemma verifyTimestamp_window (now : Int) (value : List Nat)
    (h : timestampLimit < now - readInt64BE value ∨
      now - readInt64BE value < -timestampLimit) :
    verifyTimestamp now value =
      Except.error (VerifyError.timeNotSynchronized (now - readInt64BE value)) := by
  unfold verifyTimestamp
  rw [if_pos]
  exact h

lemma verifyHeader_unknown (hash : List Nat → List Nat) (now : Int)
    (saltNew : List Nat) (header : List Nat) (tokens : CredTable)
    (h123 : header.length = 123)
    (hnone : tokens.lookup (hdrClientID header) = none) :
    verifyHeader hash now saltNew header tokens =
      Except.error (VerifyError.unknownClient (hdrClientID header)) := by
  unfold verifyHeader
  rw [if_neg (by rw [h123]; decide), hnone]

lemma verifyHeader_window (hash : List Nat → List Nat) (now : Int)
    (saltNew : List Nat) (header : List Nat) (tokens : CredTable)
    (secret : List Nat) (h123 : header.length = 123)
    (hsome : tokens.lookup (hdrClientID header) = some secret)
    (hdiff : timestampLimit < now - hdrTimestamp header ∨
      now - hdrTimestamp header < -timestampLimit) :
    verifyHeader hash now saltNew header tokens =
      Except.error (VerifyError.timeNotSynchronized (now - hdrTimestamp header)) := by
  unfold verifyHeader
  rw [if_neg (by rw [h123]; decide), hsome,
    verifyTimestamp_window now ((header.drop endSalt).take lenTime) hdiff]
  rfl

/-- After the length, lookup, and window checks succeed, `verifyHeader`
reduces to the signature comparison on the parsed token. -/
lemma verifyHeader_eq_of (hash : List Nat → List Nat) (now : Int)
    (saltNew : List Nat) (header : List Nat) (tokens : CredTable)
    (secret : List Nat) (h123 : header.length = 123)
    (hsome : tokens.lookup (hdrClientID header) = some secret)
    (h1 : now - hdrTimestamp header ≤ timestampLimit)
    (h2 : -timestampLimit ≤ now - hdrTimestamp header) :
    verifyHeader hash now saltNew header tokens =
      (if header.drop endTime ==
          ((parseToken header secret (hdrTimestamp header)).Sign hash).1.signature
       then Except.ok
          (((parseToken header secret (hdrTimestamp header)).Sign hash).1.init
            now saltNew)
       else Except.error VerifyError.tokenSignature) := by
  unfold verifyHeader
  rw [if_neg (by rw [h123]; decide), hsome,
    verifyTimestamp_ok now ((header.drop endSalt).take lenTime) h1 h2]
  rfl

/-- C3 (claim): decoding a 123-byte header fails with an unknown-client
error when the parsed clientID is absent from the table; otherwise it is
rejected exactly when `|now - timestamp| > 30` seconds (30 accepted, 31
rejected); otherwise a signature mismatch against the digest recomputed
from the server's stored secret is a signature error; and a successful
decode returns a token carrying the server's own copy of the secret. -/
theorem c3_decode_failure_order (hash : List Nat → List Nat) (now : Int)
    (saltNew : List Nat) (header : List Nat) (tokens : CredTable)
    (h123 : header.length = 123) :
    (tokens.lookup (hdrClientID header) = none →
      verifyHeader hash now saltNew header tokens =
        Except.error (VerifyError.unknownClient (hdrClientID header))) ∧
    (∀ secret, tokens.lookup (hdrClientID header) = some secret →
      ((timestampLimit < now - hdrTimestamp header ∨
          now - hdrTimestamp header < -timestampLimit) →
        verifyHeader hash now saltNew header tokens =
          Except.error
            (VerifyError.timeNotSynchronized (now - hdrTimestamp header))) ∧
      (now - hdrTimestamp header ≤ timestampLimit →
        -timestampLimit ≤ now - hdrTimestamp header →
        (header.drop endTime ≠
            ((parseToken header secret (hdrTimestamp header)).Sign hash).1.signature →
          verifyHeader hash now saltNew header tokens =
            Except.error VerifyError.tokenSignature) ∧
        (∀ tok, verifyHeader hash now saltNew header tokens = Except.ok tok →
          tok.secret = secret))) := by
  refine ⟨fun hnone => verifyHeader_unknown hash now saltNew header tokens h123 hnone,
    fun secret hsome => ⟨fun hdiff =>
      verifyHeader_window hash now saltNew header tokens secret h123 hsome hdiff,
      fun h1 h2 => ?_⟩⟩
  have hred := verifyHeader_eq_of hash now saltNew header tokens secret h123 hsome h1 h2
  constructor
  · intro hne
    rw [hred, if_neg]
    simp only [beq_iff_eq]
    exact hne
  · intro tok htok
    rw [hred] at htok
    by_cases hbeq : header.drop endTime ==
        ((parseToken header secret (hdrTimestamp header)).Sign hash).1.signature
    · rw [if_pos hbeq] at htok
      have htok' := Except.ok.inj htok
      rw [← htok', Token.init_secret]
      rfl
    · rw [if_neg hbeq] at htok
      exact absurd htok (by simp)

set_option maxRecDepth 4096 in
theorem c3_decode_failure_order_witness :
    verifyHeader hash0 20 saltA ((t0.Sign hash0).2) [(2, [7])] =
      Except.error (VerifyError.unknownClient (hdrClientID ((t0.Sign hash0).2))) :=
  (c3_decode_failure_order hash0 20 saltA ((t0.Sign hash0).2) [(2, [7])]
    (by decide)).1 (by decide)

/-! ### Round-trip of Sign followed by verifyHeader -/

section RoundTrip

variable (hash : List Nat → List Nat) (t : Token)

/-- The clientID parsed back from a signed buffer. -/
lemma hdrClientID_Sign (hid : t.clientID < 2 ^ 16) (hsig : t.signature.length = 64)
    (hh : (hash (prefixPart t ++ t.secret)).length = 64) :
    hdrClientID ((t.Sign hash).2) = t.clientID := by
  unfold hdrClientID
  simp only [lenAction_eq, lenClientID_eq]
  rw [Sign_drop1 hash t hsig hh, List.take_left' (putUint16BE_length _),
    readUint16BE_putUint16BE t.clientID hid]

/-- The timestamp parsed back from a signed buffer. -/
lemma hdrTimestamp_Sign (hsalt : t.salt.length = 32) (hsig : t.signature.length = 64)
    (hlo : -(2 ^ 63 : Int) ≤ t.timestamp) (hhi : t.timestamp < 2 ^ 63)
    (hh : (hash (prefixPart t ++ t.secret)).length = 64) :
    hdrTimestamp ((t.Sign hash).2) = t.timestamp := by
  unfold hdrTimestamp
  simp only [endSalt_eq, lenTime_eq]
  rw [Sign_drop51 hash t hsalt hsig hh, List.take_left' (putUint64BE_length _),
    readInt64BE_putUint64BE_int64Bits t.timestamp hlo hhi]

/-- The token parsed back from a signed buffer serialises to the same
59-byte field prefix as the original token. -/
lemma prefixPart_parse_Sign (hWF : t.WF)
    (hh : (hash (prefixPart t ++ t.secret)).length = 64) :
    prefixPart (parseToken ((t.Sign hash).2) t.secret t.timestamp) = prefixPart t := by
  obtain ⟨hid, hsalt, hsig, hlo, hhi⟩ := hWF
  have hdl : (parseToken ((t.Sign hash).2) t.secret t.timestamp).download =
      t.download := by
    simp only [parseToken]
    rw [Sign_getD0 hash t hsig hh]
    cases t.download <;> rfl
  have hip : (parseToken ((t.Sign hash).2) t.secret t.timestamp).ip =
      ipField t.ip := by
    simp only [parseToken, endClient_eq, lenIP]
    rw [Sign_drop3 hash t hsig hh]
    exact List.take_left' (ipField_length _)
  have hsalt' : (parseToken ((t.Sign hash).2) t.secret t.timestamp).salt = t.salt := by
    simp only [parseToken, endIP_eq, lenSalt]
    rw [Sign_drop19 hash t hsig hh]
    exact List.take_left' hsalt
  have hcid : (parseToken ((t.Sign hash).2) t.secret t.timestamp).clientID =
      t.clientID := hdrClientID_Sign hash t hid hsig hh
  unfold prefixPart
  rw [hdl, hip, hsalt', hcid, ipField_idem]
  rfl

end RoundTrip

/-- C5 (amended claim): for every well-formed token whose clientID is in
the table with a matching secret, whose timestamp lies within the
30-second window, and whose timestamp is nonzero, decoding the buffer
produced by `Sign` succeeds and recovers clientID, direction, and
timestamp exactly as signed.  (The nonzero-timestamp proviso is forced by
`Token.init`, which replaces a zero timestamp with the current time in
the reply token; see the counterexample.) -/
theorem c5_sign_decode_roundtrip (hash : List Nat → List Nat)
    (hlen : ∀ l, (hash l).length = 64) (t : Token) (hWF : t.WF)
    (now : Int) (saltNew : List Nat) (tokens : CredTable)
    (hfind : tokens.lookup t.clientID = some t.secret)
    (h1 : now - t.timestamp ≤ timestampLimit)
    (h2 : -timestampLimit ≤ now - t.timestamp)
    (hts : t.timestamp ≠ 0) :
    ∃ tok, verifyHeader hash now saltNew ((t.Sign hash).2) tokens = Except.ok tok ∧
      tok.clientID = t.clientID ∧ tok.download = t.download ∧
      tok.timestamp = t.timestamp := by
  obtain ⟨hid, hsalt, hsig, hlo, hhi⟩ := hWF
  have hh := hlen (prefixPart t ++ t.secret)
  have h123 : ((t.Sign hash).2).length = 123 := Sign_length hash t hsalt hsig hh
  have hcid := hdrClientID_Sign hash t hid hsig hh
  have hts' := hdrTimestamp_Sign hash t hsalt hsig hlo hhi hh
  have hsome : tokens.lookup (hdrClientID ((t.Sign hash).2)) = some t.secret := by
    rw [hcid]
    exact hfind
  have hred := verifyHeader_eq_of hash now saltNew ((t.Sign hash).2) tokens t.secret
    h123 hsome (by rw [hts']; exact h1) (by rw [hts']; exact h2)
  have hpre : prefixPart (parseToken ((t.Sign hash).2) t.secret
      (hdrTimestamp ((t.Sign hash).2))) = prefixPart t := by
    rw [hts']
    exact prefixPart_parse_Sign hash t ⟨hid, hsalt, hsig, hlo, hhi⟩ hh
  have hsecret : (parseToken ((t.Sign hash).2) t.secret
      (hdrTimestamp ((t.Sign hash).2))).secret = t.secret := rfl
  have hrecomputed : ((parseToken ((t.Sign hash).2) t.secret
      (hdrTimestamp ((t.Sign hash).2))).Sign hash).1.signature =
      hash (prefixPart t ++ t.secret) := by
    rw [Token.Sign_fst_signature hash _ (by simp [parseToken, lenSign])
      (by rw [hpre, hsecret]; exact hlen _), hpre, hsecret]
  have hdropsig : ((t.Sign hash).2).drop endTime = hash (prefixPart t ++ t.secret) := by
    simp only [endTime_eq]
    exact Sign_drop59 hash t hsalt hsig hh
  have hbeq : (((t.Sign hash).2).drop endTime ==
      ((parseToken ((t.Sign hash).2) t.secret
        (hdrTimestamp ((t.Sign hash).2))).Sign hash).1.signature) = true := by
    rw [hdropsig, hrecomputed]
    exact beq_self_eq_true _
  refine ⟨_, by rw [hred, if_pos hbeq], ?_, ?_, ?_⟩
  · rw [Token.init_clientID, Token.Sign_fst]
    exact hdrClientID_Sign hash t hid hsig hh
  · rw [Token.init_download, Token.Sign_fst]
    simp only [parseToken]
    rw [Sign_getD0 hash t hsig hh]
    cases t.download <;> rfl
  · rw [Token.init_timestamp, Token.Sign_fst]
    have hpt : (parseToken ((t.Sign hash).2) t.secret
        (hdrTimestamp ((t.Sign hash).2))).timestamp = t.timestamp := by
      simp only [parseToken]
      exact hts'
    simp only [hpt]
    rw [if_neg hts]

/-- The token of the C5 counterexample: timestamp zero. -/
def tz : Token := { t0 with timestamp := 0 }

set_option maxRecDepth 4096 in
/-- C5 counterexample: a token signed with timestamp 0 satisfies all
hypotheses of the claim at server time 5 (clientID in the table, matching
secret, |5 - 0| ≤ 30), decoding succeeds, but the returned timestamp is 5,
not the signed 0: the claim as stated fails for a zero signed timestamp. -/
theorem c5_counterexample :
    tableA.lookup tz.clientID = some tz.secret ∧
    (5 : Int) - tz.timestamp ≤ timestampLimit ∧
    -timestampLimit ≤ (5 : Int) - tz.timestamp ∧
    (verifyHeader hash0 5 saltA ((tz.Sign hash0).2) tableA).toOption.map
      Token.timestamp = some 5 ∧
    tz.timestamp ≠ 5 := by
  decide

set_option maxRecDepth 4096 in
theorem c5_sign_decode_roundtrip_witness :
    ∃ tok, verifyHeader hash0 20 saltA ((t0.Sign hash0).2) tableA = Except.ok tok ∧
      tok.clientID = t0.clientID ∧ tok.download = t0.download ∧
      tok.timestamp = t0.timestamp :=
  c5_sign_decode_roundtrip hash0 (fun _ => rfl) t0 (by decide) 20 saltA tableA
    (by decide) (by decide) (by decide) (by decide)

set_option maxRecDepth 4096 in
/-- C4 (code evaluated at the failing input): a header signed at timestamp
10 is verified at server time 20; the refresh step replaces the salt, but
the reply token keeps timestamp 10 instead of the current time 20,
because `Token.init` only sets the timestamp when it is zero.  This
contradicts the spec and the code's own comments (`init sets random salt
and current timestamp`, `reinitialize it to reset timestamp and salt`). -/
theorem c4_refresh_keeps_nonzero_timestamp :
    (verifyHeader hash0 20 saltA ((t0.Sign hash0).2) tableA).toOption.map
      (fun tok => (tok.timestamp, tok.salt)) = some (10, saltA) ∧
    (10 : Int) ≠ 20 := by
  decide

/-- C10 (claim): `Verify` is not read-only: it overwrites the token's
signature field with the digest recomputed from the current field values
(via its internal `Sign` call), whatever the comparison outcome, and the
comparison succeeds exactly when the candidate equals that digest. -/
theorem c10_verify_mutates_signature (hash : List Nat → List Nat)
    (hlen : ∀ l, (hash l).length = 64) (t : Token) (hWF : t.WF)
    (candidate : List Nat) :
    (t.Verify hash candidate).1 = (t.Sign hash).1 ∧
    ((t.Verify hash candidate).1).signature = hash (prefixPart t ++ t.secret) ∧
    ((t.Verify hash candidate).2 = true ↔
      candidate = hash (prefixPart t ++ t.secret)) := by
  obtain ⟨hid, hsalt, hsig, _, _⟩ := hWF
  have hh := hlen (prefixPart t ++ t.secret)
  refine ⟨rfl, Token.Sign_fst_signature hash t hsig hh, ?_⟩
  have hiff : ((t.Verify hash candidate).2 = true) ↔
      candidate = ((t.Sign hash).1).signature := by
    simp [Token.Verify]
  rw [hiff, Token.Sign_fst_signature hash t hsig hh]

theorem c10_verify_mutates_signature_witness :
    ((t0.Verify hash0 []).1).signature = hash0 (prefixPart t0 ++ t0.secret) :=
  (c10_verify_mutates_signature hash0 (fun _ => rfl) t0 (by decide) []).2.1

/-- C6 (claim): whenever the inbound token is rejected for any reason
(read failure, wrong length, unknown client, replay window, signature
mismatch), `handleConnection` issues no write on the connection before it
is closed: no reply token and no error message. -/
theorem c6_silent_reject (hash : List Nat → List Nat) (now : Int)
    (saltNew : List Nat) (readOutcome : Except Unit (List Nat))
    (tokens : CredTable) (remoteIP : Option (List Nat))
    (downloadChunks : List (List Nat)) (e : VerifyError)
    (herr : Verify hash now saltNew readOutcome tokens = Except.error e) :
    handleConnection hash now saltNew readOutcome tokens remoteIP downloadChunks =
      ([], some (HandleError.authFailed e)) := by
  unfold handleConnection
  rw [herr]

theorem c6_silent_reject_witness :
    handleConnection hash0 0 saltA (Except.error ()) tableA none [] =
      ([], some (HandleError.authFailed VerifyError.readFailed)) :=
  c6_silent_reject hash0 0 saltA (Except.error ()) tableA none [] VerifyError.readFailed rfl

/-- C7 counterexample: at the deadline, the Writer's first write returns
the sentinel error `ErrWriterTimeout` — a non-nil error distinct from the
end-of-stream signal — so the claim that a Writer returns a graceful
end-of-stream (not an error) at the deadline is false as stated. -/
theorem c7_counterexample :
    writerWrite CtxState.deadlineExceeded 5 = (0, some StreamErr.writerTimeout) ∧
    some StreamErr.writerTimeout ≠ some StreamErr.eof ∧
    (writerWrite CtxState.deadlineExceeded 5).2 ≠ none := by
  decide

/-- C7 (amended claim): at the deadline the Reader returns the graceful
end-of-stream signal `io.EOF`, while the Writer returns the dedicated
sentinel error `ErrWriterTimeout`, which the upload transfer treats as
graceful completion; a true cancellation is propagated as the context's
cancellation error, distinct from both sentinels and treated as a
failure. -/
theorem c7_deadline_vs_cancellation (n : Nat) :
    readerRead CtxState.deadlineExceeded n = (0, some StreamErr.eof) ∧
    writerWrite CtxState.deadlineExceeded n = (0, some StreamErr.writerTimeout) ∧
    uploadCopyOk (some StreamErr.writerTimeout) = true ∧
    readerRead CtxState.canceled n = (0, some StreamErr.ctxCanceled) ∧
    writerWrite CtxState.canceled n = (0, some StreamErr.ctxCanceled) ∧
    StreamErr.ctxCanceled ≠ StreamErr.eof ∧
    StreamErr.ctxCanceled ≠ StreamErr.writerTimeout ∧
    uploadCopyOk (some StreamErr.ctxCanceled) = false := by
  refine ⟨rfl, rfl, rfl, rfl, rfl, by decide, by decide, rfl⟩

/-- C9 (claim): with `maxClients = N`, the number of sessions past accept
(hence past the handshake and into transfer) never exceeds N in any
reachable state: a slot is acquired before each accept and released
exactly once per accepted-or-aborted attempt, so
`accepting + sessions ≤ N` is invariant. -/
theorem c9_admission_bound (N : Nat) (s : ServerState)
    (h : SemReachable N s) : s.sessions ≤ N := by
  have hinv : s.accepting + s.sessions ≤ N := by
    induction h with
    | start => simp
    | next hr hstep ih =>
      cases hstep <;> simp_all <;> omega
  omega

lemma Token.init_salt (now : Int) (s : List Nat) (t : Token) :
    (t.init now s).salt = copyInto t.salt s := by
  by_cases h : t.timestamp = 0 <;> simp [Token.init, h]

lemma Token.init_signature (now : Int) (s : List Nat) (t : Token) :
    (t.init now s).signature = t.signature := by
  by_cases h : t.timestamp = 0 <;> simp [Token.init, h]

/-- C8 (claim): both handshake reads are exact-length.  Server side:
`auth.Verify` aborts on an I/O error or a read of any length other than
123 bytes, and an aborting server writes nothing.  Client side:
`Token.Handshake` hands the signed 123-byte token to the write call and
fails on a write error, a short write, a read error, a short read, or a
verification failure of the reply. -/
theorem c8_exact_length_handshake (hash : List Nat → List Nat)
    (hlen : ∀ l, (hash l).length = 64) (now : Int) (saltNew : List Nat)
    (tokens : CredTable) (t : Token) (hWF : t.WF)
    (writeOutcome : Except Unit Nat) (readOutcome : Except Unit (List Nat)) :
    (readOutcome = Except.error () →
      Verify hash now saltNew readOutcome tokens =
        Except.error VerifyError.readFailed) ∧
    (∀ data, readOutcome = Except.ok data → data.length ≠ 123 →
      Verify hash now saltNew readOutcome tokens =
        Except.error VerifyError.invalidTokenLength) ∧
    (∀ e remoteIP downloadChunks,
      Verify hash now saltNew readOutcome tokens = Except.error e →
      (handleConnection hash now saltNew readOutcome tokens remoteIP
        downloadChunks).1 = []) ∧
    ((t.Handshake hash now saltNew writeOutcome readOutcome).1 =
      (t.Build hash now saltNew).2) ∧
    (((t.Handshake hash now saltNew writeOutcome readOutcome).1).length = 123) ∧
    (writeOutcome = Except.error () →
      (t.Handshake hash now saltNew writeOutcome readOutcome).2 =
        Except.error HandshakeError.writeFailed) ∧
    (∀ n, writeOutcome = Except.ok n → n ≠ 123 →
      (t.Handshake hash now saltNew writeOutcome readOutcome).2 =
        Except.error HandshakeError.invalidWriteLength) ∧
    (writeOutcome = Except.ok 123 → readOutcome = Except.error () →
      (t.Handshake hash now saltNew writeOutcome readOutcome).2 =
        Except.error HandshakeError.readFailed) ∧
    (∀ reply, writeOutcome = Except.ok 123 → readOutcome = Except.ok reply →
      reply.length ≠ 123 →
      (t.Handshake hash now saltNew writeOutcome readOutcome).2 =
        Except.error HandshakeError.invalidReadLength) ∧
    (∀ reply e, writeOutcome = Except.ok 123 → readOutcome = Except.ok reply →
      reply.length = 123 →
      verifyHeader hash now saltNew reply
          [((t.Build hash now saltNew).1.clientID,
            (t.Build hash now saltNew).1.secret)] = Except.error e →
      (t.Handshake hash now saltNew writeOutcome readOutcome).2 =
        Except.error (HandshakeError.verifyFailed e)) := by
  obtain ⟨hid, hsalt, hsig, hlo, hhi⟩ := hWF
  have hsalt' : (t.init now saltNew).salt.length = 32 := by
    rw [Token.init_salt, copyInto_length, hsalt]
  have hsig' : (t.init now saltNew).signature.length = 64 := by
    rw [Token.init_signature, hsig]
  refine ⟨?_, ?_, ?_, rfl, ?_, ?_, ?_, ?_, ?_, ?_⟩
  · intro hro
    subst hro
    rfl
  · intro data hro hlen'
    subst hro
    simp only [Verify]
    rw [if_pos (by simpa using hlen')]
  · intro e remoteIP downloadChunks herr
    unfold handleConnection
    rw [herr]
  · exact Sign_length hash (t.init now saltNew) hsalt' hsig' (hlen _)
  · intro hwo
    subst hwo
    rfl
  · intro n hwo hn
    subst hwo
    simp only [Token.Handshake]
    rw [if_pos (by simpa using hn)]
  · intro hwo hro
    subst hwo
    subst hro
    simp only [Token.Handshake, lenToken_eq]
    rw [if_neg (by decide)]
  · intro reply hwo hro hlen'
    subst hwo
    subst hro
    simp only [Token.Handshake, lenToken_eq]
    rw [if_neg (by decide), if_pos (by simpa using hlen')]
  · intro reply e hwo hro hlen' hverr
    subst hwo
    subst hro
    simp only [Token.Handshake, lenToken_eq]
    rw [if_neg (by decide), if_neg (by simpa using hlen'), hverr]

set_option maxRecDepth 4096 in
theorem c8_exact_length_handshake_witness :
    (t0.Handshake hash0 20 saltA (Except.ok 123) (Except.error ())).2 =
      Except.error HandshakeError.readFailed :=
  (c8_exact_length_handshake hash0 (fun _ => rfl) 20 saltA tableA t0 (by decide)
    (Except.ok 123) (Except.error ())).2.2.2.2.2.2.2.1 rfl rfl

theorem c9_admission_bound_witness : (⟨0, 1⟩ : ServerState).sessions ≤ 2 :=
  c9_admission_bound 2 ⟨0, 1⟩
    (SemReachable.next
      (SemReachable.next SemReachable.start (SemStep.acquire ⟨0, 0⟩ (by decide)))
      (SemStep.acceptOk ⟨1, 0⟩ (by decide)))

end Spts
